import Mathlib

/-!
Verification development for the Statistical-Machine-Learning-2020 repository.

The repository consists of two Jupyter notebooks:
* a PyTorch tensor tutorial (a sequence of code cells issuing calls into
  torch / numpy and printing the results), and
* a homework notebook of probability-theory proofs consisting only of
  markdown cells.

This file contains
1. a syntactic embedding of the notebooks: every code cell of the tensor
   notebook is transcribed statement by statement into a small Python
   statement/expression grammar, so that structural properties (absence of
   loops, of conditionals, of try/except handlers, cell line counts, which
   library functions are called, which effects occur) become decidable
   computations; method calls `recv.m(a)` are transcribed as
   `call "Tensor.m" [recv, a]`;
2. a semantic embedding of the tensor/array data model: a store of numeric
   buffers, views with buffer id / offset / shape / strides, and the torch
   and numpy operations the notebook exercises (construction with copy,
   aliasing conversion, element writes, slicing, item/tolist extraction,
   out-of-place and in-place sqrt, reshape via view, device selection and
   transfer), over which the aliasing and frame claims are proved.
-/

namespace SML

/-- Cell type of a Jupyter notebook cell. -/
inductive CellType where
  | markdown
  | code
deriving DecidableEq

mutual
/-- Python expressions as they occur in the tensor notebook: numeric and
string literals, variables (attribute access `a.T` is transcribed as a
variable named `a.T`), function and method calls, binary operators,
conditional expressions (`x if c else y`), subscripts and list literals. -/
inductive Expr where
  | num (n : Int)
  | fnum (q : ℚ)
  | str (s : String)
  | var (x : String)
  | call (fn : String) (args : Args)
  | binop (op : String) (l r : Expr)
  | ifExp (cond thn els : Expr)
  | subscript (base : Expr) (idx : Args)
  | listLit (elems : Args)

/-- A list of expressions (argument lists, subscript index tuples, list
literal elements), as a nested inductive made explicit. -/
inductive Args where
  | nil
  | cons (head : Expr) (tail : Args)
end

/-- Build an `Args` value from a `List Expr`. -/
def argsOf : List Expr → Args
  | [] => .nil
  | e :: r => .cons e (argsOf r)

mutual
/-- Python statements: imports, assignments, subscript assignments
(`t[0, 0] = 10`), bare expression statements (including `print(...)` calls),
and the compound statements of the language (loops, branches, try/except) —
the grammar includes the compound forms so that their absence from the
notebook is a meaningful, checkable fact. -/
inductive Stmt where
  | imprt (modName : String)
  | assign (lhs : String) (rhs : Expr)
  | subAssign (target : String) (idx : Args) (rhs : Expr)
  | exprStmt (e : Expr)
  | forLoop (v : String) (iter : Expr) (body : Stmts)
  | whileLoop (cond : Expr) (body : Stmts)
  | ifStmt (cond : Expr) (thn els : Stmts)
  | tryStmt (body handler : Stmts)

/-- A list of statements (compound-statement bodies). -/
inductive Stmts where
  | nil
  | cons (head : Stmt) (tail : Stmts)
end

mutual
/-- Does the expression contain a conditional expression (`x if c else y`)
anywhere inside it? -/
def exprHasCond : Expr → Bool
  | .ifExp _ _ _ => true
  | .call _ args => argsHasCond args
  | .binop _ l r => exprHasCond l || exprHasCond r
  | .subscript b idx => exprHasCond b || argsHasCond idx
  | .listLit es => argsHasCond es
  | _ => false

/-- `exprHasCond` over an argument list. -/
def argsHasCond : Args → Bool
  | .nil => false
  | .cons e rest => exprHasCond e || argsHasCond rest
end

mutual
/-- All function/method names called anywhere inside the expression. -/
def exprCalls : Expr → List String
  | .num _ => []
  | .fnum _ => []
  | .str _ => []
  | .var _ => []
  | .call fn args => fn :: argsCalls args
  | .binop _ l r => exprCalls l ++ exprCalls r
  | .ifExp c t e => exprCalls c ++ exprCalls t ++ exprCalls e
  | .subscript b idx => exprCalls b ++ argsCalls idx
  | .listLit es => argsCalls es

/-- `exprCalls` over an argument list. -/
def argsCalls : Args → List String
  | .nil => []
  | .cons e rest => exprCalls e ++ argsCalls rest
end

mutual
/-- All function/method names called anywhere inside the statement,
including inside compound-statement bodies. -/
def stmtCalls : Stmt → List String
  | .imprt _ => []
  | .assign _ e => exprCalls e
  | .subAssign _ idx e => argsCalls idx ++ exprCalls e
  | .exprStmt e => exprCalls e
  | .forLoop _ iter body => exprCalls iter ++ stmtsCalls body
  | .whileLoop c body => exprCalls c ++ stmtsCalls body
  | .ifStmt c t e => exprCalls c ++ stmtsCalls t ++ stmtsCalls e
  | .tryStmt b h => stmtsCalls b ++ stmtsCalls h

/-- `stmtCalls` over a statement list. -/
def stmtsCalls : Stmts → List String
  | .nil => []
  | .cons s rest => stmtCalls s ++ stmtsCalls rest
end

mutual
/-- Does the statement contain a conditional expression anywhere inside it,
including inside compound-statement bodies? -/
def stmtHasCondExpr : Stmt → Bool
  | .imprt _ => false
  | .assign _ e => exprHasCond e
  | .subAssign _ idx e => argsHasCond idx || exprHasCond e
  | .exprStmt e => exprHasCond e
  | .forLoop _ iter body => exprHasCond iter || stmtsHaveCondExpr body
  | .whileLoop c body => exprHasCond c || stmtsHaveCondExpr body
  | .ifStmt c t e => exprHasCond c || stmtsHaveCondExpr t || stmtsHaveCondExpr e
  | .tryStmt b h => stmtsHaveCondExpr b || stmtsHaveCondExpr h

/-- `stmtHasCondExpr` over a statement list. -/
def stmtsHaveCondExpr : Stmts → Bool
  | .nil => false
  | .cons s rest => stmtHasCondExpr s || stmtsHaveCondExpr rest
end

/-- Is the statement a loop (`for` or `while`)? -/
def stmtIsLoop : Stmt → Bool
  | .forLoop _ _ _ => true
  | .whileLoop _ _ => true
  | _ => false

/-- Is the statement a branching statement (`if`/`else`)? -/
def stmtIsBranch : Stmt → Bool
  | .ifStmt _ _ _ => true
  | _ => false

/-- Is the statement a `try`/`except` handler? -/
def stmtIsTry : Stmt → Bool
  | .tryStmt _ _ => true
  | _ => false

/-- Character-list prefix test (kernel-reducible). -/
def listPrefixEq : List Char → List Char → Bool
  | [], _ => true
  | _ :: _, [] => false
  | a :: as, b :: bs => a.toNat == b.toNat && listPrefixEq as bs

/-- Does string `p` begin string `s`? -/
def strPre (p s : String) : Bool := listPrefixEq p.data s.data

/-- Is the called name a call into the external numerical libraries (torch /
numpy, including tensor methods) or plain printing/formatting? -/
def isLibFn (fn : String) : Bool :=
  strPre (r"torch") fn || strPre (r"np.") fn ||
    strPre (r"Tensor.") fn || fn == (r"print") || fn == (r"str.format")

/-- Externally observable effect categories of a statement. -/
inductive Effect where
  | stdoutWrite
  | fileWrite
  | netAccess
deriving DecidableEq

/-- Effects of one call: `print` writes to standard output; file and
network primitives (which the notebook never uses) would produce the other
effects; calls into torch/numpy only touch in-memory buffers. -/
def callEffects (fn : String) : List Effect :=
  if fn == (r"print") then [.stdoutWrite]
  else if fn == (r"open") || fn == (r"write") || fn == (r"os.remove") then [.fileWrite]
  else if fn == (r"socket.connect") || fn == (r"requests.get") then [.netAccess]
  else []

/-- Externally observable effects of a statement, in order. -/
def stmtEffects (s : Stmt) : List Effect :=
  (stmtCalls s).flatMap callEffects

/-- A notebook cell: its type and, for code cells, its statements in
source order (one statement per non-blank source line). -/
structure Cell where
  typ : CellType
  stmts : List Stmt

/-- A markdown cell (no executable statements). -/
def md : Cell := ⟨.markdown, []⟩

/-- Cell 1: `import numpy as np` / `import torch` / `print(torch.__version__)`. -/
def cell01Imports : Cell := ⟨.code, [
  .imprt (r"numpy"),
  .imprt (r"torch"),
  .exprStmt (.call (r"print") (argsOf [.var (r"torch.__version__")]))]⟩

/-- Cell 2: the copy demonstration — `arr_np = np.random.randn(2, 3)`,
`tens = torch.tensor(arr_np)`, `tens[0, 0] = 10`, with prints of the array
and the tensor before and after the write. -/
def cell02CopyDemo : Cell := ⟨.code, [
  .assign (r"arr_np") (.call (r"np.random.randn") (argsOf [.num 2, .num 3])),
  .exprStmt (.call (r"print") (argsOf [.call (r"str.format") (argsOf [.str (r"Numpy array:"), .var (r"arr_np")])])),
  .assign (r"tens") (.call (r"torch.tensor") (argsOf [.var (r"arr_np")])),
  .exprStmt (.call (r"print") (argsOf [.call (r"str.format") (argsOf [.str (r"Tensor :"), .var (r"tens")])])),
  .exprStmt (.call (r"print") (argsOf [.str (r"We modify the element (0, 0) of the tensor object")])),
  .subAssign (r"tens") (argsOf [.num 0, .num 0]) (.num 10),
  .exprStmt (.call (r"print") (argsOf [.call (r"str.format") (argsOf [.str (r"Tensor :"), .var (r"tens")])])),
  .exprStmt (.call (r"print") (argsOf [.call (r"str.format") (argsOf [.str (r"Numpy array:"), .var (r"arr_np")])]))]⟩

/-- Cell 3: the aliasing demonstration — `arr_from_tens = tens.numpy()`,
`arr_from_tens[0, 1] = 20`, with prints. -/
def cell03NumpyAlias : Cell := ⟨.code, [
  .assign (r"arr_from_tens") (.call (r"Tensor.numpy") (argsOf [.var (r"tens")])),
  .exprStmt (.call (r"print") (argsOf [.call (r"str.format") (argsOf [.str (r"Numpy array obtained with tens.numpy():"), .var (r"arr_from_tens")])])),
  .subAssign (r"arr_from_tens") (argsOf [.num 0, .num 1]) (.num 20),
  .exprStmt (.call (r"print") (argsOf [.call (r"str.format") (argsOf [.str (r"Changing this numpy array will change our tensor too:"), .var (r"tens")])]))]⟩

/-- Cell 4: slicing / item / tolist, checked with `np.shares_memory`. -/
def cell04SharesMemory : Cell := ⟨.code, [
  .assign (r"tens_first_row") (.subscript (.var (r"tens")) (argsOf [.num 0])),
  .assign (r"tens_element_as_py_obj") (.call (r"Tensor.item") (argsOf [.subscript (.var (r"tens")) (argsOf [.num 0, .num 0])])),
  .assign (r"tens_as_list") (.call (r"Tensor.tolist") (argsOf [.var (r"tens")])),
  .exprStmt (.call (r"print") (argsOf [.call (r"np.shares_memory") (argsOf [.var (r"tens"), .var (r"tens_first_row")])])),
  .exprStmt (.call (r"print") (argsOf [.call (r"np.shares_memory") (argsOf [.var (r"tens"), .var (r"tens_element_as_py_obj")])])),
  .exprStmt (.call (r"print") (argsOf [.call (r"np.shares_memory") (argsOf [.var (r"tens"), .var (r"tens_as_list")])]))]⟩

/-- Cell 5: `print(tens.size())` / `print(tens.shape)`. -/
def cell05SizeShape : Cell := ⟨.code, [
  .exprStmt (.call (r"print") (argsOf [.call (r"Tensor.size") (argsOf [.var (r"tens")])])),
  .exprStmt (.call (r"print") (argsOf [.var (r"tens.shape")]))]⟩

/-- Cell 6: eight factory-function calls, each wrapped in a print. -/
def cell06Factories : Cell := ⟨.code, [
  .exprStmt (.call (r"print") (argsOf [.call (r"torch.randint") (argsOf [.num 0, .num 10, .num 2, .num 1])])),
  .exprStmt (.call (r"print") (argsOf [.call (r"torch.arange") (argsOf [.num 10])])),
  .exprStmt (.call (r"print") (argsOf [.call (r"torch.linspace") (argsOf [.num 0, .num 1, .num 8])])),
  .exprStmt (.call (r"print") (argsOf [.call (r"torch.eye") (argsOf [.num 2])])),
  .exprStmt (.call (r"print") (argsOf [.call (r"torch.zeros") (argsOf [.num 3, .num 3])])),
  .exprStmt (.call (r"print") (argsOf [.call (r"torch.ones") (argsOf [.num 1, .num 2])])),
  .exprStmt (.call (r"print") (argsOf [.call (r"torch.randn") (argsOf [.num 3])])),
  .exprStmt (.call (r"print") (argsOf [.call (r"torch.randperm") (argsOf [.num 12])]))]⟩

/-- Cell 7: `torch.FloatTensor([[1, 0], [0, 1]])` and `torch.Tensor(2, 3)`. -/
def cell07Constructors : Cell := ⟨.code, [
  .exprStmt (.call (r"print") (argsOf [.call (r"torch.FloatTensor") (argsOf [.listLit (argsOf [.listLit (argsOf [.num 1, .num 0]), .listLit (argsOf [.num 0, .num 1])])])])),
  .exprStmt (.call (r"print") (argsOf [.call (r"torch.Tensor") (argsOf [.num 2, .num 3])]))]⟩

/-- Cell 8: `torch.empty` and in-place sampling methods. -/
def cell08Empty : Cell := ⟨.code, [
  .exprStmt (.call (r"print") (argsOf [.call (r"torch.empty") (argsOf [.num 2, .num 3])])),
  .exprStmt (.call (r"print") (argsOf [.call (r"Tensor.cauchy_") (argsOf [.call (r"torch.empty") (argsOf [.num 3])])])),
  .exprStmt (.call (r"print") (argsOf [.call (r"Tensor.geometric_") (argsOf [.call (r"torch.empty") (argsOf [.num 3]), .fnum (7/10)])]))]⟩

/-- Cell 9: out-of-place `torch.sqrt` versus in-place `twotwo.sqrt_()`. -/
def cell09Sqrt : Cell := ⟨.code, [
  .assign (r"twotwo") (.binop (r"*") (.num 2) (.call (r"torch.ones") (argsOf [.num 2]))),
  .exprStmt (.call (r"print") (argsOf [.var (r"twotwo")])),
  .assign (r"twotwo_sqrt") (.call (r"torch.sqrt") (argsOf [.var (r"twotwo")])),
  .exprStmt (.call (r"print") (argsOf [.var (r"twotwo_sqrt")])),
  .exprStmt (.call (r"print") (argsOf [.call (r"np.shares_memory") (argsOf [.var (r"twotwo"), .var (r"twotwo_sqrt")])])),
  .exprStmt (.call (r"Tensor.sqrt_") (argsOf [.var (r"twotwo")])),
  .exprStmt (.call (r"print") (argsOf [.var (r"twotwo")]))]⟩

/-- Cell 10: dtypes and casting. -/
def cell10Dtypes : Cell := ⟨.code, [
  .exprStmt (.call (r"print") (argsOf [.call (r"Tensor.type") (argsOf [.call (r"torch.zeros") (argsOf [.num 2])])])),
  .exprStmt (.call (r"print") (argsOf [.call (r"torch.tensor") (argsOf [.listLit (argsOf [.num 0, .num 1, .num 2]), .var (r"torch.short")])])),
  .exprStmt (.call (r"print") (argsOf [.call (r"Tensor.short") (argsOf [.call (r"torch.tensor") (argsOf [.listLit (argsOf [.num 0, .num 1, .num 2])])])])),
  .exprStmt (.call (r"print") (argsOf [.call (r"torch.ones") (argsOf [.num 3, .var (r"torch.double")])])),
  .exprStmt (.call (r"print") (argsOf [.call (r"Tensor.double") (argsOf [.call (r"torch.ones") (argsOf [.num 3])])]))]⟩

/-- Cell 11: the failing device cell — `print(torch.ones(3, device='cuda'))`
and three further cuda calls (never reached on a machine without a GPU). -/
def cell11CudaFail : Cell := ⟨.code, [
  .exprStmt (.call (r"print") (argsOf [.call (r"torch.ones") (argsOf [.num 3, .str (r"cuda")])])),
  .exprStmt (.call (r"print") (argsOf [.call (r"Tensor.cuda") (argsOf [.call (r"torch.ones") (argsOf [.num 3])])])),
  .exprStmt (.call (r"print") (argsOf [.call (r"Tensor.to") (argsOf [.call (r"torch.ones") (argsOf [.num 3]), .str (r"cuda")])])),
  .exprStmt (.call (r"print") (argsOf [.call (r"Tensor.type") (argsOf [.call (r"Tensor.to") (argsOf [.call (r"torch.ones") (argsOf [.num 3]), .str (r"cuda")])])]))]⟩

/-- Cell 12: `a = torch.randn(3, 1)`, `b = torch.randn_like(a)`, prints of
`a`, `b` and `a + b`. -/
def cell12Add : Cell := ⟨.code, [
  .assign (r"a") (.call (r"torch.randn") (argsOf [.num 3, .num 1])),
  .assign (r"b") (.call (r"torch.randn_like") (argsOf [.var (r"a")])),
  .exprStmt (.call (r"print") (argsOf [.call (r"str.format") (argsOf [.str (r"a ="), .var (r"a")])])),
  .exprStmt (.call (r"print") (argsOf [.call (r"str.format") (argsOf [.str (r"b ="), .var (r"b")])])),
  .exprStmt (.call (r"print") (argsOf [.call (r"str.format") (argsOf [.str (r"a + b ="), .binop (r"+") (.var (r"a")) (.var (r"b"))])]))]⟩

/-- Cell 13: `print("a @ b.T = ...".format(a @ b.T))`. -/
def cell13Matmul : Cell := ⟨.code, [
  .exprStmt (.call (r"print") (argsOf [.call (r"str.format") (argsOf [.str (r"a @ b.T ="), .binop (r"@") (.var (r"a")) (.var (r"b.T"))])]))]⟩

/-- Cell 14: print of the `a.T` attribute. -/
def cell14TransposeAttr : Cell := ⟨.code, [
  .exprStmt (.call (r"print") (argsOf [.call (r"str.format") (argsOf [.str (r"a.T ="), .var (r"a.T")])]))]⟩

/-- Cell 15: print of `a.t()`. -/
def cell15TMethod : Cell := ⟨.code, [
  .exprStmt (.call (r"print") (argsOf [.call (r"str.format") (argsOf [.str (r"a.t() ="), .call (r"Tensor.t") (argsOf [.var (r"a")])])]))]⟩

/-- Cell 16: a five-dimensional random tensor and its transposed sizes. -/
def cell16HighDim : Cell := ⟨.code, [
  .assign (r"c") (.call (r"torch.randint") (argsOf [.num 0, .num 10, .num 2, .num 3, .num 4, .num 5, .num 6])),
  .exprStmt (.call (r"print") (argsOf [.call (r"Tensor.size") (argsOf [.var (r"c")])])),
  .exprStmt (.call (r"print") (argsOf [.call (r"Tensor.size") (argsOf [.var (r"c.T")])])),
  .exprStmt (.call (r"print") (argsOf [.call (r"Tensor.size") (argsOf [.call (r"Tensor.transpose") (argsOf [.var (r"c"), .num 0, .num 2])])]))]⟩

/-- Cell 17: `c.dim()`, `c.numel()`, `torch.numel(c)`. -/
def cell17DimNumel : Cell := ⟨.code, [
  .exprStmt (.call (r"print") (argsOf [.call (r"Tensor.dim") (argsOf [.var (r"c")])])),
  .exprStmt (.call (r"print") (argsOf [.call (r"Tensor.numel") (argsOf [.var (r"c")])])),
  .exprStmt (.call (r"print") (argsOf [.call (r"torch.numel") (argsOf [.var (r"c")])]))]⟩

/-- Cell 18: `d = torch.tensor([[0, 1], [2, 467]])` and its print. -/
def cell18DTensor : Cell := ⟨.code, [
  .assign (r"d") (.call (r"torch.tensor") (argsOf [.listLit (argsOf [.listLit (argsOf [.num 0, .num 1]), .listLit (argsOf [.num 2, .num 467])])])),
  .exprStmt (.call (r"print") (argsOf [.var (r"d")]))]⟩

/-- Cell 19: `print(d.view(-1, 4))`. -/
def cell19View : Cell := ⟨.code, [
  .exprStmt (.call (r"print") (argsOf [.call (r"Tensor.view") (argsOf [.var (r"d"), .num (-1), .num 4])]))]⟩

/-- Cell 20: `print(d.dim())`. -/
def cell20Dim : Cell := ⟨.code, [
  .exprStmt (.call (r"print") (argsOf [.call (r"Tensor.dim") (argsOf [.var (r"d")])]))]⟩

/-- Cell 21: `print(d.unsqueeze(0).size())`. -/
def cell21Unsqueeze : Cell := ⟨.code, [
  .exprStmt (.call (r"print") (argsOf [.call (r"Tensor.size") (argsOf [.call (r"Tensor.unsqueeze") (argsOf [.var (r"d"), .num 0])])]))]⟩

/-- Cell 22: `print(d.squeeze(0))` and `print(d.fill_(33))`. -/
def cell22SqueezeFill : Cell := ⟨.code, [
  .exprStmt (.call (r"print") (argsOf [.call (r"Tensor.squeeze") (argsOf [.var (r"d"), .num 0])])),
  .exprStmt (.call (r"print") (argsOf [.call (r"Tensor.fill_") (argsOf [.var (r"d"), .num 33])]))]⟩

/-- Cell 23: the bare display statement `d`. -/
def cell23Display : Cell := ⟨.code, [
  .exprStmt (.var (r"d"))]⟩

/-- Cell 24: `d.resize_(4)`. -/
def cell24Resize : Cell := ⟨.code, [
  .exprStmt (.call (r"Tensor.resize_") (argsOf [.var (r"d"), .num 4]))]⟩

/-- Cell 25: `e = torch.ones_like(d)` and `print(torch.cat([d, e], dim=0))`. -/
def cell25Cat : Cell := ⟨.code, [
  .assign (r"e") (.call (r"torch.ones_like") (argsOf [.var (r"d")])),
  .exprStmt (.call (r"print") (argsOf [.call (r"torch.cat") (argsOf [.listLit (argsOf [.var (r"d"), .var (r"e")]), .num 0])]))]⟩

/-- Cell 26: the guarded device selection
`device = torch.device("cuda:0" if torch.cuda.is_available() else "cpu")`
followed by its print — the one statement of the notebook containing a
conditional expression. -/
def cell26Device : Cell := ⟨.code, [
  .assign (r"device") (.call (r"torch.device") (argsOf [.ifExp (.call (r"torch.cuda.is_available") (argsOf [])) (.str (r"cuda:0")) (.str (r"cpu"))])),
  .exprStmt (.call (r"print") (argsOf [.call (r"str.format") (argsOf [.str (r"Device:"), .var (r"device")])]))]⟩

/-- Cell 27: `e = e.to(device)`. -/
def cell27ToDevice : Cell := ⟨.code, [
  .assign (r"e") (.call (r"Tensor.to") (argsOf [.var (r"e"), .var (r"device")]))]⟩

/-- The tensor notebook: its cells in source order (markdown cells
interleaved exactly as in the file). -/
def tensorNotebookCells : List Cell := [md,
  cell01Imports, md, cell02CopyDemo, cell03NumpyAlias, md, cell04SharesMemory,
  md, cell05SizeShape, md, cell06Factories, cell07Constructors, md,
  cell08Empty, md, cell09Sqrt, md, cell10Dtypes, md, cell11CudaFail, md,
  cell12Add, cell13Matmul, cell14TransposeAttr, cell15TMethod, cell16HighDim,
  cell17DimNumel, cell18DTensor, cell19View, cell20Dim, cell21Unsqueeze,
  cell22SqueezeFill, cell23Display, cell24Resize, cell25Cat, cell26Device,
  md, cell27ToDevice, md]

/-- The code cells of the tensor notebook, in execution order. -/
def codeCells : List Cell := tensorNotebookCells.filter (fun c => c.typ == CellType.code)

/-- All executable statements of the tensor notebook, in top-to-bottom
execution order. -/
def allStmts : List Stmt := codeCells.flatMap (fun c => c.stmts)

/-- The homework notebook `homework_01_solved`: the cell type of each of
its eleven cells, in order (title, five exercise statements, five
solutions — all markdown). -/
def homeworkCells : List CellType := [.markdown, .markdown, .markdown,
  .markdown, .markdown, .markdown, .markdown, .markdown, .markdown,
  .markdown, .markdown]

/-!
Semantic embedding of the tensor/array data model: a store of numeric
buffers (torch.Storage instances), and views over them addressed by a
buffer id, an offset and per-dimension strides, as described by the
notebook's own prose and exercised by its cells.  Element values are taken
in an arbitrary inhabited type `α` (instantiated with `ℚ` or `ℤ` in the
theorems); irrational outputs such as `sqrt(2)` are represented by keeping
the element-wise function a parameter `f : α → α` of the operation.
-/

/-- The in-memory store: a list of backing buffers, each a contiguous
one-dimensional list of numeric values; buffer ids are list positions. -/
structure Store (α : Type) where
  bufs : List (List α)
deriving Repr

/-- A tensor / numpy-array view: a buffer id, an offset into the buffer, a
shape, and per-dimension strides. -/
structure View where
  buf : Nat
  off : Nat
  shape : List Nat
  strides : List Nat
deriving DecidableEq, Repr

/-- Row-major (C-contiguous) strides for a shape: the stride of each
dimension is the product of the dimensions to its right. -/
def defaultStrides : List Nat → List Nat
  | [] => []
  | _ :: rest => rest.prod :: defaultStrides rest

/-- Number of elements of a view. -/
def View.numel (v : View) : Nat := v.shape.prod

/-- Order (number of dimensions) of a view, as reported by `.dim()`. -/
def View.dim (v : View) : Nat := v.shape.length

/-- Buffer position addressed by a multi-index: the offset plus the
stride-weighted sum of the index components. -/
def View.loc (v : View) (idx : List Nat) : Nat :=
  v.off + (List.zipWith (fun i st => i * st) idx v.strides).sum

/-- The backing buffer of a view (empty if the id is dangling). -/
def Store.readBuf (s : Store α) (b : Nat) : List α := s.bufs.getD b []

/-- Read one element through a view. -/
def Store.read [Inhabited α] (s : Store α) (v : View) (idx : List Nat) : α :=
  (s.readBuf v.buf).getD (v.loc idx) default

/-- Write one value at a raw position of one buffer. -/
def Store.write (s : Store α) (b : Nat) (i : Nat) (x : α) : Store α :=
  ⟨s.bufs.set b ((s.bufs.getD b []).set i x)⟩

/-- Allocate a fresh buffer holding `data`; returns the new store and the
new buffer's id. -/
def Store.alloc (s : Store α) (data : List α) : Store α × Nat :=
  (⟨s.bufs ++ [data]⟩, s.bufs.length)

/-- All multi-indices of a shape, in row-major order. -/
def allIdx : List Nat → List (List Nat)
  | [] => [[]]
  | n :: rest => (List.range n).flatMap (fun i => (allIdx rest).map (fun t => i :: t))

/-- All elements of a view, in row-major order. -/
def Store.readAll [Inhabited α] (s : Store α) (v : View) : List α :=
  (allIdx v.shape).map (fun idx => s.read v idx)

/-- A fresh contiguous view of shape `shape` over buffer `b`. -/
def mkContiguous (b : Nat) (shape : List Nat) : View :=
  ⟨b, 0, shape, defaultStrides shape⟩

/-- Write one element through a view (`t[i, j] = x`). -/
def View.setElem [Inhabited α] (v : View) (s : Store α) (idx : List Nat) (x : α) : Store α :=
  s.write v.buf (v.loc idx) x

/-- `np.random.randn(2, 3)`-style construction: a fresh array over a fresh
buffer holding the (externally sampled) values `vals`. -/
def npNewArray (s : Store α) (vals : List α) (shape : List Nat) : Store α × View :=
  let (s', b) := s.alloc vals
  (s', mkContiguous b shape)

/-- `torch.tensor(src)`: COPIES its argument — reads the source's elements
out and allocates a fresh buffer for them, keeping the shape. -/
def torchTensor [Inhabited α] (s : Store α) (src : View) : Store α × View :=
  let (s', b) := s.alloc (s.readAll src)
  (s', mkContiguous b src.shape)

/-- `t.numpy()`: returns a view over the SAME storage (no copy). -/
def Tensor.numpy (v : View) : View := v

/-- `torch.ones(n)`: a fresh one-filled tensor. -/
def torchOnes [One α] (s : Store α) (n : Nat) : Store α × View :=
  let (s', b) := s.alloc (List.replicate n 1)
  (s', mkContiguous b [n])

/-- Scalar multiplication `c * t`: out of place, fresh buffer. -/
def scalarMul [Mul α] [Inhabited α] (c : α) (s : Store α) (v : View) : Store α × View :=
  let (s', b) := s.alloc ((s.readAll v).map (fun x => c * x))
  (s', mkContiguous b v.shape)

/-- `torch.sqrt(t)` with the element-wise square root abstracted as `f`:
out of place — reads the elements, applies `f`, allocates a fresh buffer. -/
def torchSqrt [Inhabited α] (f : α → α) (s : Store α) (v : View) : Store α × View :=
  let (s', b) := s.alloc ((s.readAll v).map f)
  (s', mkContiguous b v.shape)

/-- `t.sqrt_()` with the element-wise square root abstracted as `f`: in
place — overwrites each addressed position of the receiver's own buffer;
no allocation. -/
def Tensor.sqrtInPlace [Inhabited α] (f : α → α) (s : Store α) (v : View) : Store α :=
  (allIdx v.shape).foldl (fun st idx => st.write v.buf (v.loc idx) (f (st.read v idx))) s

/-- `np.shares_memory(a, b)` for the (contiguous) views of the notebook:
true iff both views live in the same buffer and their address ranges
overlap. -/
def sharesMemory (a b : View) : Bool :=
  a.buf == b.buf &&
    decide (max a.off b.off < min (a.off + a.numel) (b.off + b.numel))

/-- Integer indexing `t[i]` on the leading dimension: a view into the same
buffer, dropping the first shape/stride entry. -/
def View.index0 (v : View) (i : Nat) : View :=
  ⟨v.buf, v.off + i * v.strides.headD 0, v.shape.tail, v.strides.tail⟩

/-- `t[idx].item()`: the element as a plain Python number — a pure value,
detached from the store. -/
def Tensor.item [Inhabited α] (s : Store α) (v : View) (idx : List Nat) : α :=
  s.read v idx

/-- `t.tolist()`: the elements as a plain Python list (row-major; the
nesting of the Python list is immaterial here) — pure values, detached
from the store. -/
def Tensor.tolist [Inhabited α] (s : Store α) (v : View) : List α :=
  s.readAll v

/-- `np.asarray` on a plain Python object (scalar or list), as performed
internally by `np.shares_memory`: allocates a fresh buffer for the values. -/
def npAsarray (s : Store α) (vals : List α) : Store α × View :=
  let (s', b) := s.alloc vals
  (s', mkContiguous b [vals.length])

/-- Resolve a `view()` shape specification: a `-1` entry is replaced by the
element count divided by the product of the known entries. -/
def resolveShape (numel : Nat) (spec : List Int) : List Nat :=
  let known := (spec.filter (fun n => 0 ≤ n)).foldl (fun a n => a * n.toNat) 1
  spec.map (fun n => if n < 0 then numel / known else n.toNat)

/-- `t.view(spec)`: a reshaped view over the same buffer (legal for the
contiguous tensors of the notebook); the receiver is not touched. -/
def Tensor.view (v : View) (spec : List Int) : View :=
  ⟨v.buf, v.off, resolveShape v.numel spec, defaultStrides (resolveShape v.numel spec)⟩

/-- `torch.tensor(pylist)`: a fresh tensor over a fresh buffer holding the
row-major flattened literal values. -/
def torchTensorOfList (s : Store α) (vals : List α) (shape : List Nat) : Store α × View :=
  let (s', b) := s.alloc vals
  (s', mkContiguous b shape)

/-!  Device selection and transfer. -/

/-- The library-supplied diagnostic raised when a cuda device is requested
on a machine with no NVIDIA driver (as recorded in the notebook's output). -/
def noDriverMsg : String :=
  (r"Found no NVIDIA driver on your system. Please check that you have an NVIDIA GPU and installed a driver")

/-- Does a device string name a cuda device (`cuda`, `cuda:0`, ...)? -/
def devNeedsCuda (dev : String) : Bool := strPre (r"cuda") dev

/-- `torch.ones(n, device=dev)` on a machine whose cuda availability is
`avail`: raises the driver diagnostic when a cuda device is requested
without cuda, otherwise allocates the tensor. -/
def torchOnesOnDevice (avail : Bool) (s : Store ℚ) (n : Nat) (dev : String) :
    Except String (Store ℚ × View) :=
  if devNeedsCuda dev && !avail then .error noDriverMsg
  else .ok (torchOnes s n)

/-- `t.cuda()`: moves the tensor to the GPU, raising the driver diagnostic
when cuda is unavailable. -/
def Tensor.cuda (avail : Bool) (v : View) : Except String View :=
  if avail then .ok v else .error noDriverMsg

/-- `t.to(dev)`: returns a new tensor placed on `dev`; raises the driver
diagnostic when `dev` is a cuda device and cuda is unavailable. -/
def Tensor.toDev (avail : Bool) (v : View) (dev : String) : Except String (View × String) :=
  if devNeedsCuda dev && !avail then .error noDriverMsg else .ok (v, dev)

/-- `device = torch.device("cuda:0" if torch.cuda.is_available() else "cpu")`. -/
def chooseDevice (avail : Bool) : String :=
  if avail then (r"cuda:0") else (r"cpu")

/-- Execution of the failing device cell (cell 11) on a machine whose cuda
availability is `avail`: its four print statements run in order inside the
error monad; the first raised error aborts the cell and is surfaced
unchanged — the notebook wraps no statement in a handler. -/
def runCudaCell (avail : Bool) : Except String (Store ℚ) := do
  let s0 : Store ℚ := ⟨[]⟩
  let (s1, _t1) ← torchOnesOnDevice avail s0 3 (r"cuda")
  let (s2, t2) := torchOnes s1 3
  let _ ← Tensor.cuda avail t2
  let (s3, t3) := torchOnes s2 3
  let _ ← Tensor.toDev avail t3 (r"cuda")
  let (s4, t4) := torchOnes s3 3
  let _ ← Tensor.toDev avail t4 (r"cuda")
  pure s4

/-!  Concrete runs of the buffer-aliasing cells, over arbitrary sampled
values `v0 .. v5` for the `np.random.randn(2, 3)` call. -/

/-- Run of cell 2: `arr_np = np.random.randn(2, 3)`,
`tens = torch.tensor(arr_np)`, `tens[0, 0] = 10`; returns the final store,
`arr_np` and `tens`. -/
def copyDemoRun (v0 v1 v2 v3 v4 v5 : ℚ) : Store ℚ × View × View :=
  let (s1, arr_np) := npNewArray ⟨[]⟩ [v0, v1, v2, v3, v4, v5] [2, 3]
  let (s2, tens) := torchTensor s1 arr_np
  let s3 := tens.setElem s2 [0, 0] 10
  (s3, arr_np, tens)

/-- Run of cell 3, continuing cell 2: `arr_from_tens = tens.numpy()`,
`arr_from_tens[0, 1] = 20`; returns the final store, `tens` and
`arr_from_tens`. -/
def numpyAliasRun (v0 v1 v2 v3 v4 v5 : ℚ) : Store ℚ × View × View :=
  let (s3, _arr_np, tens) := copyDemoRun v0 v1 v2 v3 v4 v5
  let arr_from_tens := Tensor.numpy tens
  let s4 := arr_from_tens.setElem s3 [0, 1] 20
  (s4, tens, arr_from_tens)

/-- Result of running cell 4, continuing cell 3: the slicing / item /
tolist bindings and the fresh arrays `np.shares_memory` builds when it is
handed a plain Python scalar or list. -/
structure SharesMemoryRun where
  store : Store ℚ
  tens : View
  tens_first_row : View
  tens_element_as_py_obj : ℚ
  tens_as_list : List ℚ
  elemArr : View
  listArr : View

/-- Run of cell 4: `tens_first_row = tens[0]`,
`tens_element_as_py_obj = tens[0, 0].item()`, `tens_as_list = tens.tolist()`,
and the `np.asarray` conversions performed inside the second and third
`np.shares_memory` calls. -/
def sharesMemoryRun (v0 v1 v2 v3 v4 v5 : ℚ) : SharesMemoryRun :=
  let (s4, tens, _arr_from_tens) := numpyAliasRun v0 v1 v2 v3 v4 v5
  let tens_first_row := tens.index0 0
  let tens_element_as_py_obj := Tensor.item s4 tens [0, 0]
  let tens_as_list := Tensor.tolist s4 tens
  let (s5, elemArr) := npAsarray s4 [tens_element_as_py_obj]
  let (s6, listArr) := npAsarray s5 tens_as_list
  ⟨s6, tens, tens_first_row, tens_element_as_py_obj, tens_as_list, elemArr, listArr⟩

/-- Result of running cell 9: the store after the out-of-place
`torch.sqrt` and the store after the in-place `twotwo.sqrt_()`, with the
two tensors. -/
structure SqrtRun where
  storeAfterSqrt : Store ℚ
  twotwo : View
  twotwo_sqrt : View
  storeAfterInPlace : Store ℚ

/-- Run of cell 9 with the element-wise square root abstracted as `f`:
`twotwo = 2 * torch.ones(2)`, `twotwo_sqrt = torch.sqrt(twotwo)`,
`twotwo.sqrt_()`. -/
def sqrtCellRun (f : ℚ → ℚ) : SqrtRun :=
  let (s1, ones2) := torchOnes (⟨[]⟩ : Store ℚ) 2
  let (s2, twotwo) := scalarMul 2 s1 ones2
  let (s3, twotwo_sqrt) := torchSqrt f s2 twotwo
  let s4 := Tensor.sqrtInPlace f s3 twotwo
  ⟨s3, twotwo, twotwo_sqrt, s4⟩

/-- Run of cell 18: `d = torch.tensor([[0, 1], [2, 467]])`. -/
def dCellRun : Store ℤ × View :=
  torchTensorOfList ⟨[]⟩ [0, 1, 2, 467] [2, 2]

/-! ## Claims -/

/-- C1: in the demonstration sequence, `torch.tensor(arr_np)` copies: after
`tens[0, 0] = 10` every element of `arr_np` is unchanged (and the write did
land in `tens`); whereas `tens.numpy()` aliases the same backing buffer, so
after `arr_from_tens[0, 1] = 20` the element `(0, 1)` of `tens` equals the
written value. -/
theorem c1_tensor_copies_numpy_aliases (v0 v1 v2 v3 v4 v5 : ℚ) :
    (copyDemoRun v0 v1 v2 v3 v4 v5).1.readAll (copyDemoRun v0 v1 v2 v3 v4 v5).2.1
        = [v0, v1, v2, v3, v4, v5]
    ∧ (copyDemoRun v0 v1 v2 v3 v4 v5).1.read (copyDemoRun v0 v1 v2 v3 v4 v5).2.2 [0, 0] = 10
    ∧ (numpyAliasRun v0 v1 v2 v3 v4 v5).2.2.buf = (numpyAliasRun v0 v1 v2 v3 v4 v5).2.1.buf
    ∧ (numpyAliasRun v0 v1 v2 v3 v4 v5).1.read (numpyAliasRun v0 v1 v2 v3 v4 v5).2.1 [0, 1]
        = 20 :=
  ⟨rfl, rfl, rfl, rfl⟩

/-- C2, counterexample: the claim that every statement of the notebook is
free of conditional logic is false — the device-selection statement of the
final device cell contains the conditional expression
`"cuda:0" if torch.cuda.is_available() else "cpu"`. -/
theorem c2_counterexample_device_conditional :
    (allStmts.all (fun s => !stmtIsLoop s && !stmtHasCondExpr s)) = false
    ∧ cell26Device.stmts.countP (fun s => stmtHasCondExpr s) = 1 := by
  decide

/-- C2, amended: every statement of the tensor notebook is a simple
statement (no loop, branching or try statement anywhere), every call it
makes is a call into torch / numpy / printing, and exactly one statement —
the device-selection assignment of the final device cell — contains a
conditional expression. -/
theorem c2_amended_no_control_flow_but_device_conditional :
    (allStmts.all (fun s => !stmtIsLoop s && !stmtIsBranch s && !stmtIsTry s)) = true
    ∧ allStmts.countP (fun s => stmtHasCondExpr s) = 1
    ∧ cell26Device.stmts.countP (fun s => stmtHasCondExpr s) = 1
    ∧ (allStmts.all (fun s => (stmtCalls s).all isLibFn)) = true := by
  decide

/-- C3, counterexample: the claim that every code cell consists of exactly
one line is false — the copy-demonstration cell alone has eight statements. -/
theorem c3_counterexample_multiline_cell :
    (codeCells.all (fun c => c.stmts.length == 1)) = false
    ∧ cell02CopyDemo.stmts.length = 8 := by
  decide

/-- C3, amended: every code cell of the tensor notebook consists of one or
more statements, each of which is a simple (non-compound) statement whose
every call is a direct call into torch / numpy / printing. -/
theorem c3_amended_cells_are_library_call_sequences :
    codeCells.all (fun c => !c.stmts.isEmpty
      && c.stmts.all (fun s => (stmtCalls s).all isLibFn
          && !stmtIsLoop s && !stmtIsBranch s && !stmtIsTry s)) = true := by
  decide

/-- C4: on a machine with no GPU, the unguarded device cell raises the
library's no-driver diagnostic, which aborts the cell and is surfaced
verbatim, and no statement of the notebook is a try/except handler that
could catch or transform it. -/
theorem c4_unguarded_cuda_error_uncaught :
    runCudaCell false = Except.error noDriverMsg
    ∧ (allStmts.all (fun s => !stmtIsTry s)) = true := by
  exact ⟨rfl, by decide⟩

/-- C5: the homework proofs notebook contains zero executable code — it
has eleven cells, every one a markdown cell and none a code cell. -/
theorem c5_homework_notebook_all_markdown :
    homeworkCells.length = 11
    ∧ homeworkCells.all (fun c => c == CellType.markdown) = true
    ∧ homeworkCells.all (fun c => c != CellType.code) = true := by
  decide

/-- C6: for `twotwo = 2 * torch.ones(2)` (with the element-wise square
root abstracted as `f`), `torch.sqrt(twotwo)` allocates a fresh buffer
that shares no memory with `twotwo` and leaves `twotwo` at `[2, 2]`;
`twotwo.sqrt_()` then mutates `twotwo` in place to exactly the elements
`torch.sqrt` returned, allocating no new buffer. -/
theorem c6_sqrt_out_of_place_vs_in_place (f : ℚ → ℚ) :
    sharesMemory (sqrtCellRun f).twotwo (sqrtCellRun f).twotwo_sqrt = false
    ∧ (sqrtCellRun f).storeAfterSqrt.readAll (sqrtCellRun f).twotwo = [2, 2]
    ∧ (sqrtCellRun f).storeAfterSqrt.readAll (sqrtCellRun f).twotwo_sqrt = [f 2, f 2]
    ∧ (sqrtCellRun f).storeAfterInPlace.readAll (sqrtCellRun f).twotwo
        = (sqrtCellRun f).storeAfterSqrt.readAll (sqrtCellRun f).twotwo_sqrt
    ∧ (sqrtCellRun f).storeAfterInPlace.bufs.length
        = (sqrtCellRun f).storeAfterSqrt.bufs.length := by
  refine ⟨rfl, ?_, ?_, rfl, rfl⟩
  · have h : (sqrtCellRun f).storeAfterSqrt.readAll (sqrtCellRun f).twotwo
        = [(2 : ℚ) * 1, 2 * 1] := rfl
    simpa using h
  · have h : (sqrtCellRun f).storeAfterSqrt.readAll (sqrtCellRun f).twotwo_sqrt
        = [f ((2 : ℚ) * 1), f ((2 : ℚ) * 1)] := rfl
    simpa using h

/-- C7: the only externally observable effect of the tensor notebook is
writing to standard output — the effect trace of all statements contains
only stdout writes, no file or network effect occurs, and every call is a
call into torch / numpy / printing (in-memory state only). -/
theorem c7_stdout_is_only_effect :
    ((allStmts.flatMap stmtEffects).all (fun e => e == Effect.stdoutWrite)) = true
    ∧ (allStmts.flatMap stmtEffects).contains Effect.fileWrite = false
    ∧ (allStmts.flatMap stmtEffects).contains Effect.netAccess = false := by
  decide

set_option maxHeartbeats 1000000 in
/-- C8: slicing `tens[0]` yields a view sharing the backing buffer with
`tens` (`np.shares_memory` true), while the scalar extracted by
`tens[0, 0].item()` and the list extracted by `tens.tolist()` share no
memory with `tens` (`np.shares_memory` false on the arrays numpy builds
from them), and mutating any element of `tens` afterwards leaves the
extracted data unchanged. -/
theorem c8_slicing_aliases_extraction_copies (v0 v1 v2 v3 v4 v5 : ℚ) :
    sharesMemory (sharesMemoryRun v0 v1 v2 v3 v4 v5).tens
        (sharesMemoryRun v0 v1 v2 v3 v4 v5).tens_first_row = true
    ∧ sharesMemory (sharesMemoryRun v0 v1 v2 v3 v4 v5).tens
        (sharesMemoryRun v0 v1 v2 v3 v4 v5).elemArr = false
    ∧ sharesMemory (sharesMemoryRun v0 v1 v2 v3 v4 v5).tens
        (sharesMemoryRun v0 v1 v2 v3 v4 v5).listArr = false
    ∧ ∀ (idx : List Nat) (x : ℚ),
        ((sharesMemoryRun v0 v1 v2 v3 v4 v5).tens.setElem
            (sharesMemoryRun v0 v1 v2 v3 v4 v5).store idx x).readAll
            (sharesMemoryRun v0 v1 v2 v3 v4 v5).elemArr
          = [(sharesMemoryRun v0 v1 v2 v3 v4 v5).tens_element_as_py_obj]
        ∧ ((sharesMemoryRun v0 v1 v2 v3 v4 v5).tens.setElem
            (sharesMemoryRun v0 v1 v2 v3 v4 v5).store idx x).readAll
            (sharesMemoryRun v0 v1 v2 v3 v4 v5).listArr
          = (sharesMemoryRun v0 v1 v2 v3 v4 v5).tens_as_list :=
  ⟨rfl, rfl, rfl, fun _idx _x => ⟨rfl, rfl⟩⟩

/-- C9: the guarded device-transfer sequence never faults — with
`device = torch.device("cuda:0" if torch.cuda.is_available() else "cpu")`,
the call `e.to(device)` succeeds whatever the cuda availability (for any
tensor `e`), whereas the earlier unguarded `.to('cuda')` fails without a
GPU. -/
theorem c9_guarded_device_transfer_never_faults (avail : Bool) (e : View) :
    (Tensor.toDev avail e (chooseDevice avail)).isOk = true
    ∧ (Tensor.toDev false e (r"cuda")).isOk = false := by
  cases avail <;> exact ⟨rfl, rfl⟩

/-- C10: `d.view(-1, 4)` on the 2x2 tensor `d` returns a view of shape
`(1, 4)` over the same buffer holding `d`'s elements in row-major order,
and afterwards `d`'s own shape and dimensionality are unchanged
(`d.dim()` is still 2). -/
theorem c10_view_reshape_does_not_mutate :
    (Tensor.view dCellRun.2 [-1, 4]).shape = [1, 4]
    ∧ dCellRun.1.readAll (Tensor.view dCellRun.2 [-1, 4]) = [0, 1, 2, 467]
    ∧ (Tensor.view dCellRun.2 [-1, 4]).buf = dCellRun.2.buf
    ∧ dCellRun.2.dim = 2
    ∧ dCellRun.2.shape = [2, 2]
    ∧ dCellRun.1.readAll dCellRun.2 = [0, 1, 2, 467] := by
  refine ⟨?_, ?_, ?_, ?_, ?_, ?_⟩ <;> rfl

end SML
